import Mathlib

/-
Verification development for the natural-language-to-SQL query service in
agent.py: a three-stage pipeline (query_gen, query_check, query_execute)
over a message buffer, orchestrated as a linear state machine, with a
database-execution capability db_exec_tool.

Strings are embedded as lists of characters where character-level work
matters (the code-fence stripping of db_exec_tool); message contents and
prompts stay Lean strings.
-/

/-- Backtick character (code point 96), the markdown code-fence character. -/
def tick : Char := Char.ofNat 96

/-- Character sequence of a markdown code-fence marker: three backticks. -/
def fenceMarker : List Char := [tick, tick, tick]

/-- Character sequence of a markdown SQL code-fence opener: three backticks
    followed by the letters s, q, l. -/
def sqlFenceMarker : List Char := [tick, tick, tick, 's', 'q', 'l']

/-- Left-to-right removal of every occurrence of the six-character SQL fence
    opener, embedding the first replace call on line 53 of agent.py
    (Python str.replace replaces occurrences left to right, non-overlapping). -/
def replaceSqlFence : List Char → List Char
  | c1 :: c2 :: c3 :: c4 :: c5 :: c6 :: rest =>
    if c1 = tick ∧ c2 = tick ∧ c3 = tick ∧ c4 = 's' ∧ c5 = 'q' ∧ c6 = 'l' then
      replaceSqlFence rest
    else
      c1 :: replaceSqlFence (c2 :: c3 :: c4 :: c5 :: c6 :: rest)
  | c :: rest => c :: replaceSqlFence rest
  | [] => []

/-- Left-to-right removal of every occurrence of three consecutive backticks,
    embedding the second replace call on line 53 of agent.py. -/
def replaceTicks : List Char → List Char
  | c1 :: c2 :: c3 :: rest =>
    if c1 = tick ∧ c2 = tick ∧ c3 = tick then
      replaceTicks rest
    else
      c1 :: replaceTicks (c2 :: c3 :: rest)
  | c :: rest => c :: replaceTicks rest
  | [] => []

/-- Whitespace trimming from both ends, embedding the strip call on
    line 53 of agent.py. -/
def pyStrip (l : List Char) : List Char :=
  ((l.dropWhile Char.isWhitespace).reverse.dropWhile Char.isWhitespace).reverse

/-- The query text db_exec_tool submits to the database executor: line 53 of
    agent.py removes SQL fence openers, then all remaining fence markers, then
    trims surrounding whitespace. -/
def strippedQuery (q : List Char) : List Char :=
  pyStrip (replaceTicks (replaceSqlFence q))

/-- Modelled from the spec: QueryExecutor runs a SQL string and returns either
    a result set serialized to text or an error message as text, never raising
    (spec sections 2 and 6; the implementation, langchain
    SQLDatabase.run_no_throw called on line 58 of agent.py, is library code
    outside this repository). The possibly-failing database backend is the
    argument dbRun; a failure from it is converted to error text. -/
def run_no_throw (dbRun : List Char → Except (List Char) (List Char))
    (q : List Char) : List Char :=
  match dbRun q with
  | Except.ok r => r
  | Except.error e => ("Error: ").toList ++ e

/-- Shape of the value returned by db_exec_tool on line 62 of agent.py: a
    mapping holding the executor's text under the key result, although the
    declared Python return type of the function is str. -/
structure DbToolResult where
  result : List Char
deriving DecidableEq, Repr

/-- Embeds db_exec_tool, agent.py lines 45 to 62, in an exception monad:
    strip code-fence artifacts from the query, run it through the
    never-raising executor, and wrap the resulting text in a mapping under the
    result key. No operation in the body can raise. -/
def db_exec_tool (dbRun : List Char → Except (List Char) (List Char))
    (query : List Char) : Except (List Char) DbToolResult :=
  Except.ok { result := run_no_throw dbRun (strippedQuery query) }

/-- Number of leading backticks of a character list. -/
def leadTicks : List Char → Nat
  | c :: rest => if c = tick then leadTicks rest + 1 else 0
  | [] => 0

lemma leadTicks_ge_two {l : List Char} (h : [tick, tick] <+: l) :
    2 ≤ leadTicks l := by
  obtain ⟨t, rfl⟩ := h
  simp [leadTicks]

lemma leadTicks_cons_tick (l : List Char) : leadTicks (tick :: l) = leadTicks l + 1 := by
  simp [leadTicks]

lemma replaceTicks_good : ∀ n (l : List Char), l.length ≤ n →
    leadTicks (replaceTicks l) ≤ leadTicks l ∧ ¬ fenceMarker <:+: replaceTicks l := by
  intro n
  induction n with
  | zero =>
    intro l hl
    have : l = [] := List.length_eq_zero.mp (Nat.le_zero.mp hl)
    subst this
    refine ⟨le_rfl, fun h => ?_⟩
    have := h.length_le
    simp [fenceMarker, replaceTicks] at this
  | succ n ih =>
    intro l hl
    match l with
    | [] =>
      refine ⟨le_rfl, fun h => ?_⟩
      have := h.length_le
      simp [fenceMarker, replaceTicks] at this
    | [c] =>
      refine ⟨le_rfl, fun h => ?_⟩
      have := h.length_le
      simp [fenceMarker, replaceTicks] at this
    | [c1, c2] =>
      refine ⟨le_rfl, fun h => ?_⟩
      have := h.length_le
      simp [fenceMarker, replaceTicks] at this
    | c1 :: c2 :: c3 :: rest =>
      by_cases htick : c1 = tick ∧ c2 = tick ∧ c3 = tick
      · obtain ⟨h1, h2, h3⟩ := htick
        subst h1; subst h2; subst h3
        have hrest : rest.length ≤ n := by
          simp at hl; omega
        obtain ⟨ihLe, ihNo⟩ := ih rest hrest
        constructor
        · have hrw : replaceTicks (tick :: tick :: tick :: rest) = replaceTicks rest := by
            simp [replaceTicks]
          rw [hrw]
          refine le_trans ihLe ?_
          rw [leadTicks_cons_tick, leadTicks_cons_tick, leadTicks_cons_tick]
          omega
        · have hrw : replaceTicks (tick :: tick :: tick :: rest) = replaceTicks rest := by
            simp [replaceTicks]
          rw [hrw]
          exact ihNo
      · have hrw : replaceTicks (c1 :: c2 :: c3 :: rest) =
            c1 :: replaceTicks (c2 :: c3 :: rest) := by
          simp [replaceTicks, htick]
        have htl : (c2 :: c3 :: rest).length ≤ n := by
          simp at hl ⊢; omega
        obtain ⟨ihLe, ihNo⟩ := ih (c2 :: c3 :: rest) htl
        rw [hrw]
        constructor
        · by_cases hc1 : c1 = tick
          · subst hc1
            rw [leadTicks_cons_tick, leadTicks_cons_tick]
            omega
          · simp [leadTicks, hc1]
        · intro hinf
          rcases List.infix_cons_iff.mp hinf with hpre | hinf2
          · have hobs : fenceMarker = tick :: [tick, tick] := rfl
            rw [hobs] at hpre
            obtain ⟨hc1, hpre2⟩ := List.cons_prefix_cons.mp hpre
            have hc1t : c1 = tick := hc1.symm
            have h23 : ¬ (c2 = tick ∧ c3 = tick) := by
              intro h23
              exact htick ⟨hc1t, h23.1, h23.2⟩
            have hle1 : leadTicks (c2 :: c3 :: rest) ≤ 1 := by
              by_cases hc2 : c2 = tick
              · have hc3 : ¬ c3 = tick := fun hc3 => h23 ⟨hc2, hc3⟩
                simp [leadTicks, hc2, hc3]
              · simp [leadTicks, hc2]
            have hge2 : 2 ≤ leadTicks (replaceTicks (c2 :: c3 :: rest)) :=
              leadTicks_ge_two hpre2
            omega
          · exact ihNo hinf2

lemma replaceTicks_noFence (l : List Char) : ¬ fenceMarker <:+: replaceTicks l :=
  (replaceTicks_good l.length l le_rfl).2

lemma pyStrip_sub (l : List Char) : pyStrip l <:+: l := by
  unfold pyStrip
  have h1 : List.dropWhile Char.isWhitespace l <:+ l := List.dropWhile_suffix _
  have h2 : List.dropWhile Char.isWhitespace
      (List.dropWhile Char.isWhitespace l).reverse <:+
      (List.dropWhile Char.isWhitespace l).reverse := List.dropWhile_suffix _
  have h3 : (List.dropWhile Char.isWhitespace
      (List.dropWhile Char.isWhitespace l).reverse).reverse <+:
      List.dropWhile Char.isWhitespace l := by
    have := List.reverse_prefix.mpr h2
    simpa using this
  exact List.IsInfix.trans ( List.IsPrefix.isInfix h3) ( List.IsSuffix.isInfix h1)

example : strippedQuery ("  SELECT 1; ").toList = ("SELECT 1;").toList := by decide

/-- Message record of the conversation buffer: content plus the origin tag that
    the code passes as the name argument of HumanMessage. -/
structure Message where
  content : String
  name : String
deriving DecidableEq, Repr

/-- Conversation state carried between pipeline nodes (MessagesState). -/
abbrev MessagesState := List Message

/-- Nodes of the pipeline graph built on lines 191 to 205 of agent.py, plus
    the terminal END node. -/
inductive Stage where
  | query_gen
  | query_check
  | query_execute
  | terminal
deriving DecidableEq, Repr

/-- Routing command returned by every node, agent.py lines 104, 142 and 181:
    a buffer delta and the goto target. -/
structure Command where
  update : List Message
  goto : Stage
deriving DecidableEq, Repr

/-- Node outcome paired with the number of oracle invocations the node made. -/
structure StepResult where
  command : Command
  oracleCalls : Nat
deriving DecidableEq, Repr

/-- One oracle decision inside a react-agent loop: call a named tool with an
    argument, or finish with final text. -/
inductive OracleAction where
  | toolCall (tname : String) (arg : String)
  | finish (text : String)

/-- Structured output shape forced on the validation oracle call,
    agent.py lines 64 to 67: a single string field named query. -/
structure QueryChecker where
  query : String
deriving DecidableEq, Repr

/-- Process-wide collaborators of agent.py lines 36 to 43: the two schema
    tools discovered by runtime name matching (hence optional), the oracle
    behavior seen by each stage, the database backend, and the react-agent
    step ceiling. -/
structure Env where
  listTablesTool : Option (String → String)
  getSchemaTool : Option (String → String)
  genOracle : MessagesState → OracleAction
  checkOracle : String → QueryChecker
  execOracle : MessagesState → OracleAction
  dbRun : List Char → Except (List Char) (List Char)
  K : Nat

/-- Modelled from the spec: the internal oracle tool-calling loop of
    create_react_agent (library code, not part of this repository), as
    specified in sections 4.1, 4.3 and 6 of the spec: each round consults the
    oracle once; a tool call appends the tool output to the messages and
    loops, a finish appends the final text and stops; the loop also stops
    when the step ceiling is exhausted. Returns the final messages and the
    number of oracle consultations. -/
def reactLoop (oracle : MessagesState → OracleAction)
    (tools : String → String → String) :
    Nat → MessagesState → MessagesState × Nat
  | 0, msgs => (msgs, 0)
  | fuel + 1, msgs =>
    match oracle msgs with
    | OracleAction.finish text => (msgs ++ [⟨text, "ai"⟩], 1)
    | OracleAction.toolCall tname arg =>
      let r := reactLoop oracle tools fuel (msgs ++ [⟨tools tname arg, "tool"⟩])
      (r.1, r.2 + 1)

/-- Tool dispatch granted to the Generate react agent, agent.py line 88: the
    two schema-introspection tools, discovered by the names of lines 42, 43. -/
def genTools (env : Env) (tname arg : String) : String :=
  if tname = "sql_db_list_tables" then
    (env.listTablesTool.map (fun f => f arg)).getD ""
  else if tname = "sql_db_schema" then
    (env.getSchemaTool.map (fun f => f arg)).getD ""
  else ""

/-- Rendering of the db_exec_tool return value as tool-message text: what a
    consumer of the tool observes is the mapping shape with the result key. -/
def renderDbToolResult (r : DbToolResult) : String :=
  "result: " ++ String.mk r.result

/-- Tool dispatch granted to the Execute react agent, agent.py line 164:
    exactly the db_exec_tool capability. -/
def execTools (env : Env) (tname arg : String) : String :=
  if tname = "db_exec_tool" then
    match db_exec_tool env.dbRun arg.toList with
    | Except.ok r => renderDbToolResult r
    | Except.error e => String.mk e
  else ""

/-- Checklist directive of the validation stage, agent.py lines 119 to 132. -/
def query_check_system : String :=
  "You are a SQL expert with a strong attention to detail.\n    You work with PostgreSQL, SQLite, and other relational databases.\n    Your task is to carefully review the provided SQL query for any mistakes, including:\n    - Quoting identifiers correctly\n    - Data type mismatches\n    - Using the correct number of arguments in functions\n    - Ensuring joins use valid columns\n    - Checking for NULL handling issues\n    - Ensuring correct usage of UNION vs UNION ALL\n    - Proper casting and type usage\n    Make sure that the final query is in a postgres acceptable format\n    If there is an issue, respond with the corrected query only.\n    If the query is already correct, simply return the original query.\n    "

/-- Prompt construction of agent.py line 135. -/
def checkPrompt (query : String) : String :=
  query_check_system ++ "\n\nQuery:\n" ++ query

/-- Embeds query_gen, agent.py lines 69 to 112: raise when a required schema
    tool is missing (lines 83, 84); otherwise run the react agent over the
    state, append its last message content as a supervisor-tagged message and
    route to query_check. Reading the last element of an empty message list
    would be a Python IndexError. -/
def query_gen (env : Env) (state : MessagesState) : Except String StepResult :=
  if env.listTablesTool.isNone || env.getSchemaTool.isNone then
    Except.error "Required database tools (list_tables_tool, get_schema_tool) are not available"
  else
    match (reactLoop env.genOracle (genTools env) env.K state).1.getLast? with
    | none => Except.error "IndexError: list index out of range"
    | some m =>
      Except.ok ⟨⟨[⟨m.content, "supervisor"⟩], Stage.query_check⟩,
        (reactLoop env.genOracle (genTools env) env.K state).2⟩

/-- Embeds query_check, agent.py lines 114 to 150: read the last message of
    the state, make one structured-output oracle call on the checklist
    prompt, append the returned query as a supervisor-tagged message, and
    route to query_execute. -/
def query_check (env : Env) (state : MessagesState) : Except String StepResult :=
  match state.getLast? with
  | none => Except.error "IndexError: list index out of range"
  | some m =>
    Except.ok ⟨⟨[⟨(env.checkOracle (checkPrompt m.content)).query, "supervisor"⟩],
      Stage.query_execute⟩, 1⟩

/-- Embeds query_execute, agent.py lines 155 to 189: run the react agent
    granted only db_exec_tool, append its last message content as a
    supervisor-tagged message, and route to END. -/
def query_execute (env : Env) (state : MessagesState) : Except String StepResult :=
  match (reactLoop env.execOracle (execTools env) env.K state).1.getLast? with
  | none => Except.error "IndexError: list index out of range"
  | some m =>
    Except.ok ⟨⟨[⟨m.content, "supervisor"⟩], Stage.terminal⟩,
      (reactLoop env.execOracle (execTools env) env.K state).2⟩

/-- Entry edge of the graph: START routes to query_gen, agent.py line 201. -/
def entryStage : Stage := Stage.query_gen

/-- One orchestrator transition: dispatch the node of the current stage, then
    apply its Command by appending the update and moving to the goto target
    (graph wiring of agent.py lines 191 to 205; the apply-then-dispatch
    behavior of the langgraph driver is modelled from spec section 4.4). -/
def stepStage (env : Env) :
    Stage → MessagesState → Except String (MessagesState × Stage)
  | Stage.query_gen, st =>
    (query_gen env st).map (fun r => (st ++ r.command.update, r.command.goto))
  | Stage.query_check, st =>
    (query_check env st).map (fun r => (st ++ r.command.update, r.command.goto))
  | Stage.query_execute, st =>
    (query_execute env st).map (fun r => (st ++ r.command.update, r.command.goto))
  | Stage.terminal, st => Except.ok (st, Stage.terminal)

/-- Drives the graph from a stage until the terminal node, bounded by fuel:
    returns the final buffer, the final stage, and the list of nodes that
    were executed, in order. -/
def runFrom (env : Env) :
    Nat → Stage → MessagesState → Except String (MessagesState × Stage × List Stage)
  | 0, s, st => Except.ok (st, s, [])
  | fuel + 1, s, st =>
    if s = Stage.terminal then Except.ok (st, Stage.terminal, [])
    else
      match stepStage env s st with
      | Except.error e => Except.error e
      | Except.ok (st2, s2) =>
        match runFrom env fuel s2 st2 with
        | Except.error e => Except.error e
        | Except.ok (stF, sF, tr) => Except.ok (stF, sF, s :: tr)

lemma reactLoop_ext (oracle : MessagesState → OracleAction)
    (tools : String → String → String) :
    ∀ fuel msgs, ∃ ext, (reactLoop oracle tools fuel msgs).1 = msgs ++ ext := by
  intro fuel
  induction fuel with
  | zero => intro msgs; exact ⟨[], by simp [reactLoop]⟩
  | succ n ih =>
    intro msgs
    cases horacle : oracle msgs with
    | toolCall tname arg =>
      obtain ⟨ext, hext⟩ := ih (msgs ++ [⟨tools tname arg, "tool"⟩])
      refine ⟨⟨tools tname arg, "tool"⟩ :: ext, ?_⟩
      simp [reactLoop, horacle, hext]
    | finish text => exact ⟨[⟨text, "ai"⟩], by simp [reactLoop, horacle]⟩

lemma reactLoop_calls (oracle : MessagesState → OracleAction)
    (tools : String → String → String) :
    ∀ fuel msgs, (reactLoop oracle tools fuel msgs).2 ≤ fuel := by
  intro fuel
  induction fuel with
  | zero => intro msgs; simp [reactLoop]
  | succ n ih =>
    intro msgs
    cases horacle : oracle msgs with
    | toolCall tname arg =>
      have := ih (msgs ++ [⟨tools tname arg, "tool"⟩])
      simp [reactLoop, horacle]
      omega
    | finish text => simp [reactLoop, horacle]

lemma getLast?_of_ne_nil {α : Type} {l : List α} (h : l ≠ []) :
    ∃ a, l.getLast? = some a :=
  Option.isSome_iff_exists.mp (List.getLast?_isSome.mpr h)

lemma query_gen_spec (env : Env) (st : MessagesState)
    (hl : env.listTablesTool.isSome = true) (hg : env.getSchemaTool.isSome = true)
    (hst : st ≠ []) :
    ∃ m : Message,
      (reactLoop env.genOracle (genTools env) env.K st).1.getLast? = some m ∧
      query_gen env st = Except.ok ⟨⟨[⟨m.content, "supervisor"⟩], Stage.query_check⟩,
        (reactLoop env.genOracle (genTools env) env.K st).2⟩ := by
  obtain ⟨ext, hext⟩ := reactLoop_ext env.genOracle (genTools env) env.K st
  have hne : (reactLoop env.genOracle (genTools env) env.K st).1 ≠ [] := by
    rw [hext]
    intro h
    exact hst (List.append_eq_nil.mp h).1
  obtain ⟨m, hm⟩ := getLast?_of_ne_nil hne
  obtain ⟨f, hf⟩ := Option.isSome_iff_exists.mp hl
  obtain ⟨g, hgg⟩ := Option.isSome_iff_exists.mp hg
  refine ⟨m, hm, ?_⟩
  simp [query_gen, hf, hgg, hm]

lemma query_check_spec (env : Env) (st : MessagesState) (m : Message)
    (h : st.getLast? = some m) :
    query_check env st = Except.ok
      ⟨⟨[⟨(env.checkOracle (checkPrompt m.content)).query, "supervisor"⟩],
        Stage.query_execute⟩, 1⟩ := by
  simp [query_check, h]

lemma query_execute_spec (env : Env) (st : MessagesState) (hst : st ≠ []) :
    ∃ m : Message,
      (reactLoop env.execOracle (execTools env) env.K st).1.getLast? = some m ∧
      query_execute env st = Except.ok ⟨⟨[⟨m.content, "supervisor"⟩], Stage.terminal⟩,
        (reactLoop env.execOracle (execTools env) env.K st).2⟩ := by
  obtain ⟨ext, hext⟩ := reactLoop_ext env.execOracle (execTools env) env.K st
  have hne : (reactLoop env.execOracle (execTools env) env.K st).1 ≠ [] := by
    rw [hext]
    intro h
    exact hst (List.append_eq_nil.mp h).1
  obtain ⟨m, hm⟩ := getLast?_of_ne_nil hne
  refine ⟨m, hm, ?_⟩
  simp [query_execute, hm]


lemma runFrom_term (env : Env) (fuel : Nat) (st : MessagesState) :
    runFrom env (fuel + 1) Stage.terminal st = Except.ok (st, Stage.terminal, []) := rfl

lemma runFrom_step (env : Env) (fuel : Nat) (s : Stage) (st st2 : MessagesState)
    (s2 : Stage) (stF : MessagesState) (sF : Stage) (tr : List Stage)
    (hs : s ≠ Stage.terminal)
    (hstep : stepStage env s st = Except.ok (st2, s2))
    (hrest : runFrom env fuel s2 st2 = Except.ok (stF, sF, tr)) :
    runFrom env (fuel + 1) s st = Except.ok (stF, sF, s :: tr) := by
  cases s with
  | terminal => exact absurd rfl hs
  | query_gen => simp only [runFrom, hstep, hrest]; rw [if_neg hs]
  | query_check => simp only [runFrom, hstep, hrest]; rw [if_neg hs]
  | query_execute => simp only [runFrom, hstep, hrest]; rw [if_neg hs]

lemma run_pipeline_spec (env : Env) (st : MessagesState)
    (hl : env.listTablesTool.isSome = true) (hg : env.getSchemaTool.isSome = true)
    (hst : st ≠ []) :
    ∃ m1 m2 m3 : Message,
      runFrom env 4 entryStage st =
        Except.ok (st ++ [m1, m2, m3], Stage.terminal,
          [Stage.query_gen, Stage.query_check, Stage.query_execute]) ∧
      m1.name = "supervisor" ∧ m2.name = "supervisor" ∧ m3.name = "supervisor" ∧
      (∃ mg, (reactLoop env.genOracle (genTools env) env.K st).1.getLast? = some mg ∧
        m1.content = mg.content) ∧
      m2.content = (env.checkOracle (checkPrompt m1.content)).query ∧
      (∃ me, (reactLoop env.execOracle (execTools env) env.K
          (st ++ [m1, m2])).1.getLast? = some me ∧ m3.content = me.content) := by
  obtain ⟨mg, hmg, hgen⟩ := query_gen_spec env st hl hg hst
  set m1 : Message := ⟨mg.content, "supervisor"⟩ with hm1
  have hlast1 : (st ++ [m1]).getLast? = some m1 := List.getLast?_concat st
  have hcheck := query_check_spec env (st ++ [m1]) m1 hlast1
  set m2 : Message := ⟨(env.checkOracle (checkPrompt m1.content)).query, "supervisor"⟩
    with hm2
  have hne2 : st ++ [m1] ++ [m2] ≠ [] := by simp
  obtain ⟨me, hme, hexec⟩ := query_execute_spec env (st ++ [m1] ++ [m2]) hne2
  set m3 : Message := ⟨me.content, "supervisor"⟩ with hm3
  have s1 : stepStage env Stage.query_gen st =
      Except.ok (st ++ [m1], Stage.query_check) := by
    simp only [stepStage, hgen, Except.map]
  have s2 : stepStage env Stage.query_check (st ++ [m1]) =
      Except.ok (st ++ [m1] ++ [m2], Stage.query_execute) := by
    simp only [stepStage, hcheck, Except.map]
  have s3 : stepStage env Stage.query_execute (st ++ [m1] ++ [m2]) =
      Except.ok (st ++ [m1] ++ [m2] ++ [m3], Stage.terminal) := by
    simp only [stepStage, hexec, Except.map]
  have r3 : runFrom env 2 Stage.query_execute (st ++ [m1] ++ [m2]) =
      Except.ok (st ++ [m1] ++ [m2] ++ [m3], Stage.terminal, [Stage.query_execute]) :=
    runFrom_step env 1 Stage.query_execute _ _ _ _ _ _ (by decide) s3
      (runFrom_term env 0 _)
  have r2 : runFrom env 3 Stage.query_check (st ++ [m1]) =
      Except.ok (st ++ [m1] ++ [m2] ++ [m3], Stage.terminal,
        [Stage.query_check, Stage.query_execute]) :=
    runFrom_step env 2 Stage.query_check _ _ _ _ _ _ (by decide) s2 r3
  have r1 : runFrom env 4 Stage.query_gen st =
      Except.ok (st ++ [m1] ++ [m2] ++ [m3], Stage.terminal,
        [Stage.query_gen, Stage.query_check, Stage.query_execute]) :=
    runFrom_step env 3 Stage.query_gen _ _ _ _ _ _ (by decide) s1 r2
  have hasc : st ++ [m1] ++ [m2] = st ++ [m1, m2] := by simp
  refine ⟨m1, m2, m3, ?_, rfl, rfl, rfl, ⟨mg, hmg, rfl⟩, rfl, ⟨me, ?_, rfl⟩⟩
  · show runFrom env 4 Stage.query_gen st = _
    rw [r1]
    simp
  · rw [← hasc]
    exact hme

lemma query_gen_shape (env : Env) (st : MessagesState) (r : StepResult)
    (h : query_gen env st = Except.ok r) :
    r.command.goto = Stage.query_check ∧
    (∃ c, r.command.update = [⟨c, "supervisor"⟩]) ∧
    r.oracleCalls ≤ env.K := by
  unfold query_gen at h
  cases hcond : (env.listTablesTool.isNone || env.getSchemaTool.isNone) with
  | true =>
    rw [if_pos hcond] at h
    exact Except.noConfusion h
  | false =>
    simp only [hcond, Bool.false_eq_true, if_false] at h
    rcases hm : (reactLoop env.genOracle (genTools env) env.K st).1.getLast? with _ | m
    · rw [hm] at h
      exact Except.noConfusion h
    · rw [hm] at h
      injection h with h2
      subst h2
      exact ⟨rfl, ⟨m.content, rfl⟩, reactLoop_calls _ _ _ _⟩

lemma query_check_shape (env : Env) (st : MessagesState) (r : StepResult)
    (h : query_check env st = Except.ok r) :
    r.command.goto = Stage.query_execute ∧
    (∃ c, r.command.update = [⟨c, "supervisor"⟩]) ∧
    r.oracleCalls = 1 := by
  unfold query_check at h
  rcases hm : st.getLast? with _ | m
  · rw [hm] at h
    exact Except.noConfusion h
  · rw [hm] at h
    injection h with h2
    subst h2
    exact ⟨rfl, ⟨_, rfl⟩, rfl⟩

lemma query_execute_shape (env : Env) (st : MessagesState) (r : StepResult)
    (h : query_execute env st = Except.ok r) :
    r.command.goto = Stage.terminal ∧
    (∃ c, r.command.update = [⟨c, "supervisor"⟩]) ∧
    r.oracleCalls ≤ env.K := by
  unfold query_execute at h
  rcases hm : (reactLoop env.execOracle (execTools env) env.K st).1.getLast? with _ | m
  · rw [hm] at h
    exact Except.noConfusion h
  · rw [hm] at h
    injection h with h2
    subst h2
    exact ⟨rfl, ⟨m.content, rfl⟩, reactLoop_calls _ _ _ _⟩

/-- Configuration the process needs before it can serve requests. -/
structure Config where
  apiKey : String
  databaseUrl : String
deriving DecidableEq, Repr

/-- Embeds the module prologue of agent.py, lines 30 to 39, which runs when
    the module is imported, before the query endpoint is even defined: with
    GOOGLE_API_KEY absent, os.getenv yields None and the assignment
    os.environ of a None value on line 33 raises TypeError; with DATABASE_URL
    absent, SQLDatabase.from_uri on line 39 raises on a None URI (library
    behavior for a None connection string). -/
def startup (googleApiKey databaseUrl : Option String) : Except String Config :=
  match googleApiKey with
  | none => Except.error "TypeError: str expected, not NoneType"
  | some key =>
    match databaseUrl with
    | none => Except.error "ArgumentError: expected string or URL object, got None"
    | some url => Except.ok { apiKey := key, databaseUrl := url }

/-- Concrete environment used to exercise the pipeline on a run: both schema
    tools present, scripted oracles, an echoing database backend, ceiling 1. -/
def sampleEnv : Env where
  listTablesTool := some (fun _ => "users")
  getSchemaTool := some (fun _ => "CREATE TABLE users (id int, role text)")
  genOracle := fun _ => OracleAction.finish "SELECT 1"
  checkOracle := fun _ => ⟨"SELECT 1"⟩
  execOracle := fun _ => OracleAction.finish "There is 1 user"
  dbRun := fun q => Except.ok q
  K := 1

/-- Concrete seed buffer holding one user question. -/
def sampleSeed : MessagesState := [⟨"How many users are there?", "user"⟩]

/-- Buffer produced by running the pipeline on the sample environment. -/
def sampleBuf : MessagesState :=
  [⟨"How many users are there?", "user"⟩, ⟨"SELECT 1", "supervisor"⟩,
   ⟨"SELECT 1", "supervisor"⟩, ⟨"There is 1 user", "supervisor"⟩]

example : runFrom sampleEnv 4 entryStage sampleSeed =
    Except.ok (sampleBuf, Stage.terminal,
      [Stage.query_gen, Stage.query_check, Stage.query_execute]) := rfl

/-- C1: the pipeline state machine is fixed and linear. Control starts at the
    entry stage query_gen (GENERATE); every successful query_gen routes to
    query_check (VALIDATE), every successful query_check routes to
    query_execute (EXECUTE), every successful query_execute routes to the
    terminal stage; and a run with the required tools present and a nonempty
    seed buffer executes, for every oracle behavior, exactly the node
    sequence query_gen, query_check, query_execute and ends terminal: no
    revisit of an earlier stage and no branch to any other stage. -/
theorem pipeline_fixed_linear (env : Env) (st : MessagesState)
    (hl : env.listTablesTool.isSome = true) (hg : env.getSchemaTool.isSome = true)
    (hst : st ≠ []) :
    (∀ st2 r, query_gen env st2 = Except.ok r → r.command.goto = Stage.query_check) ∧
    (∀ st2 r, query_check env st2 = Except.ok r → r.command.goto = Stage.query_execute) ∧
    (∀ st2 r, query_execute env st2 = Except.ok r → r.command.goto = Stage.terminal) ∧
    ∃ final : MessagesState,
      runFrom env 4 entryStage st =
        Except.ok (final, Stage.terminal,
          [Stage.query_gen, Stage.query_check, Stage.query_execute]) := by
  obtain ⟨m1, m2, m3, hrun, _⟩ := run_pipeline_spec env st hl hg hst
  exact ⟨fun st2 r hr => (query_gen_shape env st2 r hr).1,
    fun st2 r hr => (query_check_shape env st2 r hr).1,
    fun st2 r hr => (query_execute_shape env st2 r hr).1,
    st ++ [m1, m2, m3], hrun⟩

/-- Witness for C1 at the sample environment and seed. -/
theorem pipeline_fixed_linear_witness :
    (sampleEnv.listTablesTool.isSome = true) ∧
    (sampleEnv.getSchemaTool.isSome = true) ∧
    (sampleSeed ≠ []) ∧
    ((∀ st2 r, query_gen sampleEnv st2 = Except.ok r →
        r.command.goto = Stage.query_check) ∧
      (∀ st2 r, query_check sampleEnv st2 = Except.ok r →
        r.command.goto = Stage.query_execute) ∧
      (∀ st2 r, query_execute sampleEnv st2 = Except.ok r →
        r.command.goto = Stage.terminal) ∧
      ∃ final : MessagesState,
        runFrom sampleEnv 4 entryStage sampleSeed =
          Except.ok (final, Stage.terminal,
            [Stage.query_gen, Stage.query_check, Stage.query_execute])) :=
  ⟨rfl, rfl, by simp [sampleSeed],
    pipeline_fixed_linear sampleEnv sampleSeed rfl rfl (by simp [sampleSeed])⟩

/-- C2: buffer monotonicity and hand-off. With the required tools present and
    a nonempty seed buffer, a run returns the seed buffer extended by exactly
    three messages, one per stage transition: the seed is an untouched prefix
    (append-only, nothing removed, replaced or reordered) and the final
    length is the initial length plus 3. Moreover each stage consumes the
    previous stage's output as the last entry: validation reads the
    generation message m1 as the last entry of its input and builds its
    prompt from m1, and execution runs on the buffer whose last entry is the
    validation message m2. -/
theorem buffer_append_only_plus_three (env : Env) (st : MessagesState)
    (hl : env.listTablesTool.isSome = true) (hg : env.getSchemaTool.isSome = true)
    (hst : st ≠ []) :
    ∃ m1 m2 m3 : Message,
      runFrom env 4 entryStage st =
        Except.ok (st ++ [m1, m2, m3], Stage.terminal,
          [Stage.query_gen, Stage.query_check, Stage.query_execute]) ∧
      (st ++ [m1, m2, m3]).length = st.length + 3 ∧
      st <+: st ++ [m1, m2, m3] ∧
      (st ++ [m1]).getLast? = some m1 ∧
      m2.content = (env.checkOracle (checkPrompt m1.content)).query ∧
      (st ++ [m1, m2]).getLast? = some m2 ∧
      (∃ me, (reactLoop env.execOracle (execTools env) env.K
          (st ++ [m1, m2])).1.getLast? = some me ∧ m3.content = me.content) := by
  obtain ⟨m1, m2, m3, hrun, _, _, _, _, hm2, hme⟩ := run_pipeline_spec env st hl hg hst
  refine ⟨m1, m2, m3, hrun, by simp, ⟨[m1, m2, m3], rfl⟩, List.getLast?_concat st,
    hm2, ?_, hme⟩
  have : st ++ [m1, m2] = (st ++ [m1]) ++ [m2] := by simp
  rw [this]
  exact List.getLast?_concat _

/-- Witness for C2 at the sample environment and seed. -/
theorem buffer_append_only_plus_three_witness :
    (sampleEnv.listTablesTool.isSome = true) ∧
    (sampleEnv.getSchemaTool.isSome = true) ∧
    (sampleSeed ≠ []) ∧
    (∃ m1 m2 m3 : Message,
      runFrom sampleEnv 4 entryStage sampleSeed =
        Except.ok (sampleSeed ++ [m1, m2, m3], Stage.terminal,
          [Stage.query_gen, Stage.query_check, Stage.query_execute]) ∧
      (sampleSeed ++ [m1, m2, m3]).length = sampleSeed.length + 3 ∧
      sampleSeed <+: sampleSeed ++ [m1, m2, m3] ∧
      (sampleSeed ++ [m1]).getLast? = some m1 ∧
      m2.content = (sampleEnv.checkOracle (checkPrompt m1.content)).query ∧
      (sampleSeed ++ [m1, m2]).getLast? = some m2 ∧
      (∃ me, (reactLoop sampleEnv.execOracle (execTools sampleEnv) sampleEnv.K
          (sampleSeed ++ [m1, m2])).1.getLast? = some me ∧ m3.content = me.content)) :=
  ⟨rfl, rfl, by simp [sampleSeed],
    buffer_append_only_plus_three sampleEnv sampleSeed rfl rfl (by simp [sampleSeed])⟩

/-- C8 amended: every Message appended by a pipeline stage carries the origin
    tag supervisor, the same tag for all three stages: every successful node
    output is one supervisor-tagged message, and in every complete run all
    three appended messages carry the tag supervisor. The tag therefore does
    not identify which stage produced a message. -/
theorem origin_tags_all_supervisor (env : Env) (st : MessagesState)
    (hl : env.listTablesTool.isSome = true) (hg : env.getSchemaTool.isSome = true)
    (hst : st ≠ []) :
    (∀ st2 r, query_gen env st2 = Except.ok r →
      ∃ c, r.command.update = [⟨c, "supervisor"⟩]) ∧
    (∀ st2 r, query_check env st2 = Except.ok r →
      ∃ c, r.command.update = [⟨c, "supervisor"⟩]) ∧
    (∀ st2 r, query_execute env st2 = Except.ok r →
      ∃ c, r.command.update = [⟨c, "supervisor"⟩]) ∧
    ∃ m1 m2 m3 : Message,
      runFrom env 4 entryStage st =
        Except.ok (st ++ [m1, m2, m3], Stage.terminal,
          [Stage.query_gen, Stage.query_check, Stage.query_execute]) ∧
      m1.name = "supervisor" ∧ m2.name = "supervisor" ∧ m3.name = "supervisor" := by
  obtain ⟨m1, m2, m3, hrun, h1, h2, h3, _⟩ := run_pipeline_spec env st hl hg hst
  exact ⟨fun st2 r hr => (query_gen_shape env st2 r hr).2.1,
    fun st2 r hr => (query_check_shape env st2 r hr).2.1,
    fun st2 r hr => (query_execute_shape env st2 r hr).2.1,
    m1, m2, m3, hrun, h1, h2, h3⟩

/-- Witness for the amended C8 at the sample environment and seed. -/
theorem origin_tags_all_supervisor_witness :
    (sampleEnv.listTablesTool.isSome = true) ∧
    (sampleEnv.getSchemaTool.isSome = true) ∧
    (sampleSeed ≠ []) ∧
    ((∀ st2 r, query_gen sampleEnv st2 = Except.ok r →
        ∃ c, r.command.update = [⟨c, "supervisor"⟩]) ∧
      (∀ st2 r, query_check sampleEnv st2 = Except.ok r →
        ∃ c, r.command.update = [⟨c, "supervisor"⟩]) ∧
      (∀ st2 r, query_execute sampleEnv st2 = Except.ok r →
        ∃ c, r.command.update = [⟨c, "supervisor"⟩]) ∧
      ∃ m1 m2 m3 : Message,
        runFrom sampleEnv 4 entryStage sampleSeed =
          Except.ok (sampleSeed ++ [m1, m2, m3], Stage.terminal,
            [Stage.query_gen, Stage.query_check, Stage.query_execute]) ∧
        m1.name = "supervisor" ∧ m2.name = "supervisor" ∧ m3.name = "supervisor") :=
  ⟨rfl, rfl, by simp [sampleSeed],
    origin_tags_all_supervisor sampleEnv sampleSeed rfl rfl (by simp [sampleSeed])⟩

/-- C8 counterexample: on this concrete run the Generate stage produced
    buffer entry 1 and the Validate stage produced buffer entry 2, and the
    two origin tags are equal (both supervisor), so messages produced by
    distinct stages do not carry distinct origin tags. -/
theorem origin_tags_not_distinct_counterexample :
    runFrom sampleEnv 4 entryStage sampleSeed =
      Except.ok (sampleBuf, Stage.terminal,
        [Stage.query_gen, Stage.query_check, Stage.query_execute]) ∧
    sampleBuf[1]? ≠ none ∧ sampleBuf[2]? ≠ none ∧
    (sampleBuf[1]?).map Message.name = (sampleBuf[2]?).map Message.name :=
  ⟨rfl, by simp [sampleBuf], by simp [sampleBuf], rfl⟩

/-- C5: the Validate stage makes exactly one oracle call (the call count of
    its result is the literal 1, with no retry loop and no tool access in its
    definition), forces the structured output shape holding a single query
    string, appends that query as the new last message, and routes
    unconditionally to query_execute. -/
theorem validate_single_call_routes_execute (env : Env) (st : MessagesState)
    (m : Message) (h : st.getLast? = some m) :
    query_check env st = Except.ok
      ⟨⟨[⟨(env.checkOracle (checkPrompt m.content)).query, "supervisor"⟩],
        Stage.query_execute⟩, 1⟩ :=
  query_check_spec env st m h

/-- Witness for C5 at a concrete one-message buffer. -/
theorem validate_single_call_routes_execute_witness :
    (([⟨"SELECT 1", "supervisor"⟩] : MessagesState).getLast? =
      some ⟨"SELECT 1", "supervisor"⟩) ∧
    query_check sampleEnv [⟨"SELECT 1", "supervisor"⟩] = Except.ok
      ⟨⟨[⟨(sampleEnv.checkOracle (checkPrompt "SELECT 1")).query, "supervisor"⟩],
        Stage.query_execute⟩, 1⟩ :=
  ⟨rfl, validate_single_call_routes_execute sampleEnv
    [⟨"SELECT 1", "supervisor"⟩] ⟨"SELECT 1", "supervisor"⟩ rfl⟩

/-- C6: if either required schema-introspection tool is absent when the
    Generate stage runs, the stage raises (returns the error of agent.py
    line 84) and so aborts the request immediately instead of proceeding. -/
theorem gen_aborts_on_missing_tool (env : Env) (st : MessagesState)
    (h : env.listTablesTool.isNone = true ∨ env.getSchemaTool.isNone = true) :
    query_gen env st = Except.error
      "Required database tools (list_tables_tool, get_schema_tool) are not available" := by
  have hcond : (env.listTablesTool.isNone || env.getSchemaTool.isNone) = true := by
    rcases h with h | h <;> simp [h]
  unfold query_gen
  rw [if_pos hcond]

/-- Environment with the list-tables tool absent. -/
def noToolEnv : Env where
  listTablesTool := none
  getSchemaTool := some (fun _ => "CREATE TABLE users (id int)")
  genOracle := fun _ => OracleAction.finish "SELECT 1"
  checkOracle := fun _ => ⟨"SELECT 1"⟩
  execOracle := fun _ => OracleAction.finish "done"
  dbRun := fun q => Except.ok q
  K := 1

/-- Witness for C6 at an environment missing the list-tables tool. -/
theorem gen_aborts_on_missing_tool_witness :
    (noToolEnv.listTablesTool.isNone = true ∨ noToolEnv.getSchemaTool.isNone = true) ∧
    query_gen noToolEnv sampleSeed = Except.error
      "Required database tools (list_tables_tool, get_schema_tool) are not available" :=
  ⟨Or.inl rfl, gen_aborts_on_missing_tool noToolEnv sampleSeed (Or.inl rfl)⟩

/-- C7: the internal oracle tool-calling loops of the Generate and Execute
    stages each make at most the configured step-ceiling K oracle calls,
    whatever the oracle does, including an oracle that never signals
    completion; neither loop can run unboundedly. -/
theorem stage_loops_bounded_by_ceiling (env : Env) (stg ste : MessagesState)
    (rg re : StepResult)
    (hgen : query_gen env stg = Except.ok rg)
    (hexec : query_execute env ste = Except.ok re) :
    rg.oracleCalls ≤ env.K ∧ re.oracleCalls ≤ env.K :=
  ⟨(query_gen_shape env stg rg hgen).2.2, (query_execute_shape env ste re hexec).2.2⟩

/-- Environment whose stage oracles never signal completion: every round is
    another tool call. -/
def loopEnv : Env where
  listTablesTool := some (fun _ => "users")
  getSchemaTool := some (fun _ => "CREATE TABLE users (id int)")
  genOracle := fun _ => OracleAction.toolCall "sql_db_list_tables" "x"
  checkOracle := fun _ => ⟨"SELECT 1"⟩
  execOracle := fun _ => OracleAction.toolCall "db_exec_tool" "SELECT 1"
  dbRun := fun q => Except.ok q
  K := 2

/-- Witness for C7 at an oracle that never finishes: with ceiling 2 both
    stages stop after exactly 2 oracle calls. -/
theorem stage_loops_bounded_by_ceiling_witness :
    query_gen loopEnv sampleSeed =
      Except.ok ⟨⟨[⟨"users", "supervisor"⟩], Stage.query_check⟩, 2⟩ ∧
    query_execute loopEnv sampleSeed =
      Except.ok ⟨⟨[⟨"result: SELECT 1", "supervisor"⟩], Stage.terminal⟩, 2⟩ ∧
    (2 ≤ loopEnv.K ∧ 2 ≤ loopEnv.K) :=
  ⟨rfl, rfl,
    stage_loops_bounded_by_ceiling loopEnv sampleSeed sampleSeed _ _ rfl rfl⟩

/-- C9: if the oracle API key or the database connection URI is absent from
    the environment, the startup prologue raises, so the process fails when
    the module loads, before the query endpoint is defined and before any request
    can be served. -/
theorem startup_fails_fast (k u : Option String) (h : k = none ∨ u = none) :
    ∃ e, startup k u = Except.error e := by
  rcases h with h | h
  · subst h
    exact ⟨_, rfl⟩
  · subst h
    cases k with
    | none => exact ⟨_, rfl⟩
    | some key => exact ⟨_, rfl⟩

/-- Witness for C9 at a missing API key. -/
theorem startup_fails_fast_witness :
    ((none : Option String) = none ∨ (some "postgres" : Option String) = none) ∧
    ∃ e, startup none (some "postgres") = Except.error e :=
  ⟨Or.inl rfl, startup_fails_fast none (some "postgres") (Or.inl rfl)⟩

/-- C3: for every input query text, the string db_exec_tool submits to the
    query executor is fence-free: neither the three-backtick fence marker nor
    the SQL fence opener occurs anywhere in it, and db_exec_tool runs the
    executor exactly on that stripped string. -/
theorem exec_submits_fence_free (q : List Char) :
    (¬ fenceMarker <:+: strippedQuery q) ∧
    (¬ sqlFenceMarker <:+: strippedQuery q) ∧
    ∀ dbRun, db_exec_tool dbRun q =
      Except.ok { result := run_no_throw dbRun (strippedQuery q) } := by
  have hsub : strippedQuery q <:+: replaceTicks (replaceSqlFence q) := pyStrip_sub _
  have hno : ¬ fenceMarker <:+: replaceTicks (replaceSqlFence q) :=
    replaceTicks_noFence _
  refine ⟨fun h => hno (h.trans hsub), fun h => ?_, fun dbRun => rfl⟩
  have hpre : fenceMarker <+: sqlFenceMarker := ⟨['s', 'q', 'l'], rfl⟩
  exact hno ((( List.IsPrefix.isInfix hpre).trans h).trans hsub)

/-- C4: db_exec_tool never raises: for every database backend and every query
    string it returns a value, and a backend failure surfaces as readable
    error text inside the returned result rather than as a propagated error. -/
theorem db_exec_tool_never_raises
    (dbRun : List Char → Except (List Char) (List Char)) (q : List Char) :
    (∃ r, db_exec_tool dbRun q = Except.ok r) ∧
    (∀ e, dbRun (strippedQuery q) = Except.error e →
      db_exec_tool dbRun q = Except.ok ⟨("Error: ").toList ++ e⟩) := by
  refine ⟨⟨_, rfl⟩, fun e he => ?_⟩
  simp [db_exec_tool, run_no_throw, he]

/-- Witness for C4 at a backend that fails on every query. -/
theorem db_exec_tool_never_raises_witness :
    ((fun _ => Except.error ("no such table").toList :
        List Char → Except (List Char) (List Char))
      (strippedQuery ("SELECT x").toList) = Except.error ("no such table").toList) ∧
    db_exec_tool (fun _ => Except.error ("no such table").toList)
        ("SELECT x").toList =
      Except.ok ⟨("Error: ").toList ++ ("no such table").toList⟩ :=
  ⟨rfl, (db_exec_tool_never_raises (fun _ => Except.error ("no such table").toList)
    ("SELECT x").toList).2 ("no such table").toList rfl⟩

/-- C10: for every environment and query, db_exec_tool returns the executor
    text wrapped in a mapping under the result field (not the bare string its
    declared Python return type announces), and the Execute stage's tool
    dispatch, the consumer of this value, renders exactly that wrapped
    mapping. -/
theorem db_exec_tool_wraps_result (env : Env) (q : List Char) :
    db_exec_tool env.dbRun q =
      Except.ok { result := run_no_throw env.dbRun (strippedQuery q) } ∧
    execTools env "db_exec_tool" (String.mk q) =
      renderDbToolResult { result := run_no_throw env.dbRun (strippedQuery q) } := by
  constructor
  · rfl
  · simp [execTools, db_exec_tool]
